import Mathlib

/-
Verification of the chakra chat node's session loop (src/main.rs).

The session loop (the body of `main`, lines 77-135) is embedded shallowly:
each `select!` arm becomes a case of a pure `step` function over an explicit
session state; the whole loop over a finite prefix of the merged event
sequence becomes `run`.  Effects (dial, publish, add_node_to_partial_view,
prompt/message printing) are recorded as an action trace; `log` macro calls
(info!/warn!/error!) are not modelled since no property mentions them.
Control flow out of an iteration is an `Outcome`: `next` models `continue` /
falling through to the next iteration, `exitErr` models the `?` operator
propagating an error out of `main` (non-zero process exit), `panicked`
models a Rust panic (`.unwrap()` on `Err`/`None`), and `exitOk` models a
clean `return Ok(())` / `break` out of the loop — included in the type so
that its absence from the code (no arm ever produces it) is expressible.
-/

namespace Chakra

/-- Peer identifiers (libp2p `PeerId`), modelled opaquely as strings. -/
abbrev PeerId := String

/-- Network addresses (libp2p `Multiaddr`), modelled opaquely as strings. -/
abbrev Multiaddr := String

/-- Floodsub topics, modelled by their name string. -/
abbrev Topic := String

/-- The session's single topic: `Topic::new("chakra-chat")` (main.rs line 59). -/
def chakraTopic : Topic := "chakra-chat"

/-- Is a byte a UTF-8 continuation byte (0x80..=0xBF)? -/
def isCont (b : Nat) : Bool := decide (0x80 ≤ b) && decide (b < 0xC0)

/-- Strict UTF-8 decoding of a byte sequence into its code points, the
validation performed by Rust's `str::from_utf8` (main.rs line 129): rejects
continuation bytes in lead position, overlong encodings, surrogate code
points and code points above U+10FFFF.  `none` models `Err(Utf8Error)`. -/
def utf8Decode : List Nat → Option (List Nat)
  | [] => some []
  | b :: rest =>
    if b < 0x80 then
      (utf8Decode rest).map (fun cs => b :: cs)
    else if b < 0xC2 then
      none
    else if b < 0xE0 then
      match rest with
      | b1 :: rest1 =>
        if isCont b1 then
          (utf8Decode rest1).map (fun cs => ((b - 0xC0) * 0x40 + (b1 - 0x80)) :: cs)
        else none
      | [] => none
    else if b < 0xF0 then
      match rest with
      | b1 :: b2 :: rest2 =>
        if isCont b1 && isCont b2 then
          let cp := (b - 0xE0) * 0x1000 + (b1 - 0x80) * 0x40 + (b2 - 0x80)
          if cp < 0x800 then none
          else if 0xD800 ≤ cp ∧ cp < 0xE000 then none
          else (utf8Decode rest2).map (fun cs => cp :: cs)
        else none
      | _ => none
    else if b < 0xF5 then
      match rest with
      | b1 :: b2 :: b3 :: rest3 =>
        if isCont b1 && isCont b2 && isCont b3 then
          let cp := (b - 0xF0) * 0x40000 + (b1 - 0x80) * 0x1000
            + (b2 - 0x80) * 0x40 + (b3 - 0x80)
          if cp < 0x10000 then none
          else if 0x110000 ≤ cp then none
          else (utf8Decode rest3).map (fun cs => cp :: cs)
        else none
      | _ => none
    else none

/-- UTF-8 encoding of one code point, as Rust's `str::as_bytes` exposes it
per character of a string (main.rs line 107, `line.as_bytes()`). -/
def utf8EncodeChar (c : Nat) : List Nat :=
  if c < 0x80 then [c]
  else if c < 0x800 then [0xC0 + c / 0x40, 0x80 + c % 0x40]
  else if c < 0x10000 then
    [0xE0 + c / 0x1000, 0x80 + c / 0x40 % 0x40, 0x80 + c % 0x40]
  else
    [0xF0 + c / 0x40000, 0x80 + c / 0x1000 % 0x40, 0x80 + c / 0x40 % 0x40,
      0x80 + c % 0x40]

/-- The byte sequence `line.as_bytes()` of a string. -/
def utf8Encode (s : String) : List Nat :=
  (s.data.map (fun c => utf8EncodeChar c.toNat)).flatten

/-- The session loop's mutable state: the `connection_established` flag
(main.rs line 52) and the floodsub partial view, the set of peers that
`add_node_to_partial_view` has been called for (main.rs line 118; empty at
`Floodsub::new`, line 60). -/
structure SessionState where
  connection_established : Bool
  floodView : List PeerId
deriving Repr, DecidableEq

/-- The state at loop entry: flag `false`, empty view. -/
def initState : SessionState := { connection_established := false, floodView := [] }

/-- Result of one `stdin.select_next_some()` resolution: `Ok(line)` or a
read error (main.rs lines 80-86). -/
inductive LineRead
  | ok (line : String)
  | readErr
deriving Repr, DecidableEq

/-- The swarm events distinguished by the match at main.rs lines 109-133:
`NewListenAddr`, a `Ping` behaviour event (the code binds only `peer` and
discards the probe result, so the result field is carried here but ignored
by `step`, faithfully to `PingEvent { peer, .. }`), a floodsub `Subscribed`
event, a floodsub `Message`, and the residual `_ => {}` category. -/
inductive SwarmEv
  | newListenAddr (addr : Multiaddr)
  | ping (peer : PeerId) (success : Bool)
  | subscribed (peer : PeerId)
  | message (source : PeerId) (data : List Nat)
  | other
deriving Repr, DecidableEq

/-- One event delivered to the `select!` merge point: a local input line or
a swarm event. -/
inductive Event
  | line (r : LineRead)
  | swarm (e : SwarmEv)
deriving Repr, DecidableEq

/-- The observable effects an iteration can perform. -/
inductive Action
  | dial (addr : Multiaddr)
  | publish (topic : Topic) (payload : List Nat)
  | addNodeToPartialView (peer : PeerId)
  | printPrompt
  | renderMessage (source : PeerId) (text : List Nat)
deriving Repr, DecidableEq

/-- How one iteration ends: `next` continues the loop; `exitOk` would be a
clean `return Ok(())`/`break` (exit code 0) — no arm of the loop body
produces it; `exitErr` is the `?` operator propagating an error out of
`main` (non-zero exit); `panicked` is a Rust panic. -/
inductive Outcome
  | next
  | exitOk
  | exitErr
  | panicked
deriving Repr, DecidableEq

/-- The environment the loop body consults: `line.parse::<Multiaddr>()`
(main.rs line 89) and whether `swarm.dial(addr)` succeeds (line 97). -/
structure Env where
  parseAddr : String → Option Multiaddr
  dialOk : Multiaddr → Bool

/-- `Floodsub::add_node_to_partial_view`: insert into the view set
(idempotent). -/
def addToView (p : PeerId) (v : List PeerId) : List PeerId :=
  if p ∈ v then v else v ++ [p]

/-- One iteration of the session loop (main.rs lines 77-135): dispatch one
event, returning the updated state, the actions performed, and how the
iteration ended. -/
def step (env : Env) (s : SessionState) (e : Event) :
    SessionState × List Action × Outcome :=
  match e with
  | Event.line LineRead.readErr =>
    -- warn! + continue (lines 82-85)
    (s, [], Outcome.next)
  | Event.line (LineRead.ok line) =>
    if s.connection_established then
      -- print_prompt + floodsub.publish(topic, line.as_bytes()) (lines 102-107)
      (s, [Action.printPrompt, Action.publish chakraTopic (utf8Encode line)],
        Outcome.next)
    else
      match env.parseAddr line with
      | none =>
        -- warn! + continue (lines 91-94)
        (s, [], Outcome.next)
      | some addr =>
        -- swarm.dial(addr)? (line 97): the dial request is issued either
        -- way; on Err the `?` exits main with that error
        if env.dialOk addr then (s, [Action.dial addr], Outcome.next)
        else (s, [Action.dial addr], Outcome.exitErr)
  | Event.swarm (SwarmEv.newListenAddr _) =>
    -- info! only (lines 110-112)
    (s, [], Outcome.next)
  | Event.swarm (SwarmEv.ping peer _) =>
    -- lines 113-123: `PingEvent { peer, .. }` — the probe result is ignored
    if s.connection_established then (s, [], Outcome.next)
    else
      ({ connection_established := true, floodView := addToView peer s.floodView },
        [Action.addNodeToPartialView peer], Outcome.next)
  | Event.swarm (SwarmEv.subscribed _) =>
    -- lines 124-127: info! + print_prompt; the view is not touched
    (s, [Action.printPrompt], Outcome.next)
  | Event.swarm (SwarmEv.message source data) =>
    -- lines 128-131: str::from_utf8(&data).unwrap() inside println!
    match utf8Decode data with
    | some text =>
      (s, [Action.renderMessage source text, Action.printPrompt], Outcome.next)
    | none =>
      -- unwrap() on Err(Utf8Error): panic before anything is printed
      (s, [], Outcome.panicked)
  | Event.swarm SwarmEv.other =>
    -- `_ => {}` (line 132)
    (s, [], Outcome.next)

/-- Run the loop over a finite prefix of the merged event sequence,
accumulating the action trace; stop early when an iteration does not end
in `next`.  An empty remaining list means the loop is still running,
waiting for further events — the loop itself has no clean exit of its own. -/
def run (env : Env) : SessionState → List Event → SessionState × List Action × Outcome
  | s, [] => (s, [], Outcome.next)
  | s, e :: es =>
    let r := step env s e
    if r.2.2 = Outcome.next then
      let r2 := run env r.1 es
      (r2.1, r.2.1 ++ r2.2.1, r2.2.2)
    else r

/-- Environment for concrete runs: no string parses as an address. -/
def env0 : Env := { parseAddr := fun _ => none, dialOk := fun _ => true }

/-- Environment where every line parses as an address and dialing works. -/
def envAddr : Env := { parseAddr := fun l => some l, dialOk := fun _ => true }

/-- Environment where every line parses as an address and every dial fails. -/
def envDialFail : Env := { parseAddr := fun l => some l, dialOk := fun _ => false }

/-- Recognizer for dial actions. -/
def isDial : Action → Bool
  | Action.dial _ => true
  | _ => false

/-- Recognizer for publish actions. -/
def isPublish : Action → Bool
  | Action.publish _ _ => true
  | _ => false

/-- The invariant behind the single-peer view: with the flag down the view is
still empty, and the view never holds more than one peer. -/
def viewInv (s : SessionState) : Prop :=
  (s.connection_established = false → s.floodView = []) ∧ s.floodView.length ≤ 1

/-- Every arm of the loop body leaves the session state unchanged, except
the ping arm taken with the flag down, which raises the flag and inserts
the peer into the view. -/
lemma step_state_cases (env : Env) (s : SessionState) (e : Event) :
    (step env s e).1 = s ∨
    ∃ p b, e = Event.swarm (SwarmEv.ping p b) ∧
      s.connection_established = false ∧
      (step env s e).1
        = { connection_established := true, floodView := addToView p s.floodView } := by
  cases e with
  | line r =>
    cases r with
    | readErr => exact Or.inl rfl
    | ok l =>
      cases hconn : s.connection_established with
      | true => exact Or.inl (by simp [step, hconn])
      | false =>
        cases hp : env.parseAddr l with
        | none => exact Or.inl (by simp [step, hconn, hp])
        | some a =>
          cases hd : env.dialOk a with
          | true => exact Or.inl (by simp [step, hconn, hp, hd])
          | false => exact Or.inl (by simp [step, hconn, hp, hd])
  | swarm ev =>
    cases ev with
    | newListenAddr a => exact Or.inl rfl
    | ping p b =>
      cases hconn : s.connection_established with
      | true => exact Or.inl (by simp [step, hconn])
      | false => exact Or.inr ⟨p, b, rfl, rfl, by simp [step, hconn]⟩
    | subscribed p => exact Or.inl rfl
    | other => exact Or.inl rfl
    | message src data =>
      cases hm : utf8Decode data with
      | none => exact Or.inl (by simp [step, hm])
      | some t => exact Or.inl (by simp [step, hm])

/-- One iteration never lowers a raised `connection_established` flag. -/
lemma step_flag_mono (env : Env) (s : SessionState) (e : Event)
    (h : s.connection_established = true) :
    (step env s e).1.connection_established = true := by
  rcases step_state_cases env s e with h1 | ⟨p, b, _, hfalse, _⟩
  · rw [h1]; exact h
  · simp [h] at hfalse

/-- Running any event sequence never lowers a raised flag. -/
lemma run_flag_mono (env : Env) (evs : List Event) :
    ∀ s : SessionState, s.connection_established = true →
      (run env s evs).1.connection_established = true := by
  induction evs with
  | nil => intro s h; exact h
  | cons e es ih =>
    intro s h
    by_cases hn : (step env s e).2.2 = Outcome.next
    · simpa [run, hn] using ih _ (step_flag_mono env s e h)
    · simpa [run, hn] using step_flag_mono env s e h

/-- One iteration preserves the single-peer view invariant. -/
lemma step_preserves_viewInv (env : Env) (s : SessionState) (e : Event)
    (h : viewInv s) : viewInv (step env s e).1 := by
  rcases step_state_cases env s e with h1 | ⟨p, b, _, hfalse, h1⟩
  · rw [h1]; exact h
  · rw [h1]
    refine ⟨fun hc => absurd hc (by simp), ?_⟩
    have hv : s.floodView = [] := h.1 hfalse
    simp [addToView, hv]

/-- Running any event sequence preserves the single-peer view invariant. -/
lemma run_preserves_viewInv (env : Env) (evs : List Event) :
    ∀ s : SessionState, viewInv s → viewInv (run env s evs).1 := by
  induction evs with
  | nil => intro s h; exact h
  | cons e es ih =>
    intro s h
    by_cases hn : (step env s e).2.2 = Outcome.next
    · simpa [run, hn] using ih _ (step_preserves_viewInv env s e h)
    · simpa [run, hn] using step_preserves_viewInv env s e h

/-- One iteration ends in `next`, `exitErr` or `panicked` — never in the
clean-exit outcome `exitOk`, because no arm of the loop body breaks out of
the loop or returns `Ok(())`. -/
lemma step_outcome_cases (env : Env) (s : SessionState) (e : Event) :
    (step env s e).2.2 = Outcome.next ∨ (step env s e).2.2 = Outcome.exitErr ∨
      (step env s e).2.2 = Outcome.panicked := by
  cases e with
  | line r =>
    cases r with
    | readErr => exact Or.inl rfl
    | ok l =>
      cases hconn : s.connection_established with
      | true => exact Or.inl (by simp [step, hconn])
      | false =>
        cases hp : env.parseAddr l with
        | none => exact Or.inl (by simp [step, hconn, hp])
        | some a =>
          cases hd : env.dialOk a with
          | true => exact Or.inl (by simp [step, hconn, hp, hd])
          | false => exact Or.inr (Or.inl (by simp [step, hconn, hp, hd]))
  | swarm ev =>
    cases ev with
    | newListenAddr a => exact Or.inl rfl
    | ping p b =>
      cases hconn : s.connection_established with
      | true => exact Or.inl (by simp [step, hconn])
      | false => exact Or.inl (by simp [step, hconn])
    | subscribed p => exact Or.inl rfl
    | other => exact Or.inl rfl
    | message src data =>
      cases hm : utf8Decode data with
      | none => exact Or.inr (Or.inr (by simp [step, hm]))
      | some t => exact Or.inl (by simp [step, hm])

/-- Claim C1 (code-bug evidence): a `MessageReceived` event whose payload is
the single byte 0xFF — not valid UTF-8 — makes the iteration panic
(`str::from_utf8(&data).unwrap()`, main.rs line 129): the outcome is
`panicked` and no placeholder, indeed no action at all, is rendered, so the
decode failure is not caught as the spec requires. -/
theorem c1_invalid_payload_panics :
    utf8Decode [255] = none ∧
    (step env0 initState (Event.swarm (SwarmEv.message "peer" [255]))).2.2
      = Outcome.panicked ∧
    (step env0 initState (Event.swarm (SwarmEv.message "peer" [255]))).2.1 = [] := by
  exact ⟨rfl, rfl, rfl⟩

/-- Claim C2 counterexample: a probe event reporting failure
(`success := false`, modelling `PingEvent` with `result = Err(..)`),
arriving while the flag is false, still sets `connection_established` to
true, because the handler `PingEvent { peer, .. }` discards the probe
result (main.rs line 113). -/
theorem c2_counterexample :
    initState.connection_established = false ∧
    (step env0 initState
        (Event.swarm (SwarmEv.ping "p" false))).1.connection_established = true := by
  exact ⟨rfl, rfl⟩

/-- Claim C2 (amended): the flag starts false, and the first ping event of
any kind — successful or failed, since the handler ignores the probe
result — raises it to true; once true it never drops back, so the
transition happens exactly once. -/
theorem c2_amended (env : Env) (s : SessionState) (p : PeerId) (b : Bool)
    (h : s.connection_established = false) :
    initState.connection_established = false ∧
    (step env s (Event.swarm (SwarmEv.ping p b))).1.connection_established = true ∧
    ∀ (s2 : SessionState) (e : Event), s2.connection_established = true →
      (step env s2 e).1.connection_established = true := by
  refine ⟨rfl, by simp [step, h], fun s2 e h2 => step_flag_mono env s2 e h2⟩

/-- Witness for `c2_amended` at a concrete input. -/
theorem c2_amended_witness :
    initState.connection_established = false ∧
    (step env0 initState
        (Event.swarm (SwarmEv.ping "q" true))).1.connection_established = true :=
  ⟨(c2_amended env0 initState "q" true rfl).1,
    (c2_amended env0 initState "q" true rfl).2.1⟩

/-- Claim C3 counterexample: processing `Subscribed("p")` from the initial
state leaves the flood view empty — the peer is not added (the handler at
main.rs lines 124-127 only logs and prints a prompt). -/
theorem c3_counterexample :
    (step env0 initState (Event.swarm (SwarmEv.subscribed "p"))).1.floodView = [] ∧
    ¬ ("p" ∈ (step env0 initState
        (Event.swarm (SwarmEv.subscribed "p"))).1.floodView) := by
  exact ⟨rfl, by decide⟩

/-- Claim C3 (amended): a `Subscribed` event leaves the session state — in
particular the flood view — completely unchanged; the handler only prints a
prompt and continues. Peers enter the view only through the ping handler. -/
theorem c3_amended (env : Env) (s : SessionState) (p : PeerId) :
    (step env s (Event.swarm (SwarmEv.subscribed p))).1 = s ∧
    (step env s (Event.swarm (SwarmEv.subscribed p))).2.1 = [Action.printPrompt] ∧
    (step env s (Event.swarm (SwarmEv.subscribed p))).2.2 = Outcome.next :=
  ⟨rfl, rfl, rfl⟩

/-- Claim C4 counterexample: with the flag false, a line parsing as a valid
address whose dial fails makes the whole run end in `exitErr` — the `?` on
`swarm.dial(addr)` (main.rs line 97) propagates the error out of `main` and
the subsequent event is never processed, so the session does not continue. -/
theorem c4_counterexample :
    (run envDialFail initState
        [Event.line (LineRead.ok "/ip4/127.0.0.1/tcp/4001"),
          Event.swarm SwarmEv.other]).2.2 = Outcome.exitErr ∧
    (run envDialFail initState
        [Event.line (LineRead.ok "/ip4/127.0.0.1/tcp/4001"),
          Event.swarm SwarmEv.other]).2.1
      = [Action.dial "/ip4/127.0.0.1/tcp/4001"] := by
  exact ⟨rfl, rfl⟩

/-- Claim C4 (amended): a dial failure on a valid-address line entered while
the flag is false terminates the run at that iteration with the error
outcome: the dial request is issued, but no later event is processed — the
minimal (fatal) variant, not the permissive log-and-continue one. -/
theorem c4_amended (env : Env) (s : SessionState) (l : String) (a : Multiaddr)
    (rest : List Event) (hflag : s.connection_established = false)
    (hparse : env.parseAddr l = some a) (hdial : env.dialOk a = false) :
    run env s (Event.line (LineRead.ok l) :: rest)
      = (s, [Action.dial a], Outcome.exitErr) := by
  have hstep : step env s (Event.line (LineRead.ok l))
      = (s, [Action.dial a], Outcome.exitErr) := by
    simp [step, hflag, hparse, hdial]
  simp [run, hstep]

/-- Witness for `c4_amended` at a concrete input. -/
theorem c4_amended_witness :
    run envDialFail initState [Event.line (LineRead.ok "/ip4/1.2.3.4/tcp/1")]
      = (initState, [Action.dial "/ip4/1.2.3.4/tcp/1"], Outcome.exitErr) :=
  c4_amended envDialFail initState "/ip4/1.2.3.4/tcp/1" "/ip4/1.2.3.4/tcp/1" []
    rfl rfl rfl

/-- Claim C5 counterexample: two successive ping events for peers "A" and
"B" from the initial state leave the view at `["A"]` — the second peer is
not added, because the second event finds the flag already true and the
handler is then a no-op. -/
theorem c5_counterexample :
    run env0 initState
        [Event.swarm (SwarmEv.ping "A" true), Event.swarm (SwarmEv.ping "B" true)]
      = ({ connection_established := true, floodView := ["A"] },
          [Action.addNodeToPartialView "A"], Outcome.next) ∧
    ¬ ("B" ∈ (run env0 initState
        [Event.swarm (SwarmEv.ping "A" true),
          Event.swarm (SwarmEv.ping "B" true)]).1.floodView) := by
  exact ⟨rfl, by decide⟩

/-- Claim C5 (amended): starting with the flag false and an empty view,
after the first `PeerResponsive` event the flag is true and that peer is
the view's sole element; the second event for another peer leaves the
state unchanged — the flag stays true but the second peer is NOT added. -/
theorem c5_amended (env : Env) (pA pB : PeerId) (s : SessionState)
    (hflag : s.connection_established = false) (hview : s.floodView = []) :
    (step env s (Event.swarm (SwarmEv.ping pA true))).1.connection_established = true ∧
    (step env s (Event.swarm (SwarmEv.ping pA true))).1.floodView = [pA] ∧
    (step env (step env s (Event.swarm (SwarmEv.ping pA true))).1
        (Event.swarm (SwarmEv.ping pB true))).1
      = (step env s (Event.swarm (SwarmEv.ping pA true))).1 ∧
    (pB ∈ (step env (step env s (Event.swarm (SwarmEv.ping pA true))).1
        (Event.swarm (SwarmEv.ping pB true))).1.floodView → pB = pA) := by
  have h1 : (step env s (Event.swarm (SwarmEv.ping pA true))).1
      = { connection_established := true, floodView := [pA] } := by
    simp [step, hflag, hview, addToView]
  have h2 : step env { connection_established := true, floodView := [pA] }
      (Event.swarm (SwarmEv.ping pB true))
      = ({ connection_established := true, floodView := [pA] }, [], Outcome.next) := by
    simp [step]
  rw [h1, h2]
  refine ⟨rfl, rfl, rfl, fun hm => ?_⟩
  simpa using hm

/-- Witness for `c5_amended` at a concrete input. -/
theorem c5_amended_witness :
    (step env0 initState
        (Event.swarm (SwarmEv.ping "A" true))).1.connection_established = true ∧
    (step env0 initState (Event.swarm (SwarmEv.ping "A" true))).1.floodView = ["A"] :=
  ⟨(c5_amended env0 "A" "B" initState rfl rfl).1,
    (c5_amended env0 "A" "B" initState rfl rfl).2.1⟩

/-- Claim C6 counterexample: with the local input source already exhausted
(it contributes no further events — a terminated fused stream's
`select_next_some` never resolves), the loop does not terminate: it still
processes a subsequent network event (the state changes) and the outcome is
`next` (still running), not the clean exit with code 0 the claim asserts. -/
theorem c6_counterexample :
    (run env0 initState [Event.swarm (SwarmEv.ping "p" true)]).2.2 = Outcome.next ∧
    (run env0 initState
        [Event.swarm (SwarmEv.ping "p" true)]).1.connection_established = true := by
  exact ⟨rfl, rfl⟩

/-- Claim C6 (amended): the session loop has no clean-exit path at all —
every run ends still waiting (`next`), in error propagation (`exitErr`), or
in a panic, never in `exitOk` (exit code 0). End-of-input merely silences
the local-input event source; the loop keeps processing network events. -/
theorem c6_amended (env : Env) (s : SessionState) (evs : List Event) :
    (run env s evs).2.2 = Outcome.next ∨ (run env s evs).2.2 = Outcome.exitErr ∨
      (run env s evs).2.2 = Outcome.panicked := by
  induction evs generalizing s with
  | nil => exact Or.inl rfl
  | cons e es ih =>
    by_cases hn : (step env s e).2.2 = Outcome.next
    · simpa [run, hn] using ih (step env s e).1
    · rcases step_outcome_cases env s e with h | h | h
      · exact absurd h hn
      · exact Or.inr (Or.inl (by simp [run, hn, h]))
      · exact Or.inr (Or.inr (by simp [run, hn, h]))

/-- Claim C7: a line parsing as a valid address, processed with the flag
false, issues exactly one dial request for exactly that address and leaves
the state — in particular the flag, still false — unchanged. -/
theorem c7_dial_issued (env : Env) (s : SessionState) (l : String) (a : Multiaddr)
    (hflag : s.connection_established = false) (hparse : env.parseAddr l = some a) :
    (step env s (Event.line (LineRead.ok l))).2.1 = [Action.dial a] ∧
    (step env s (Event.line (LineRead.ok l))).1 = s ∧
    (step env s (Event.line (LineRead.ok l))).1.connection_established = false := by
  cases hd : env.dialOk a with
  | true => refine ⟨?_, ?_, ?_⟩ <;> simp [step, hflag, hparse, hd]
  | false => refine ⟨?_, ?_, ?_⟩ <;> simp [step, hflag, hparse, hd]

/-- Witness for `c7_dial_issued` at a concrete input. -/
theorem c7_witness :
    (step envAddr initState (Event.line (LineRead.ok "/ip4/1.2.3.4/tcp/1"))).2.1
      = [Action.dial "/ip4/1.2.3.4/tcp/1"] ∧
    (step envAddr initState (Event.line (LineRead.ok "/ip4/1.2.3.4/tcp/1"))).1
      = initState ∧
    (step envAddr initState
        (Event.line (LineRead.ok "/ip4/1.2.3.4/tcp/1"))).1.connection_established
      = false :=
  c7_dial_issued envAddr initState "/ip4/1.2.3.4/tcp/1" "/ip4/1.2.3.4/tcp/1" rfl rfl

/-- Claim C8: a line processed with the flag true publishes that line's
bytes exactly once on the session's topic, issues no dial request, and
leaves the state unchanged. -/
theorem c8_publish_once (env : Env) (s : SessionState) (l : String)
    (hflag : s.connection_established = true) :
    (step env s (Event.line (LineRead.ok l))).2.1
      = [Action.printPrompt, Action.publish chakraTopic (utf8Encode l)] ∧
    ((step env s (Event.line (LineRead.ok l))).2.1.countP isPublish) = 1 ∧
    ((step env s (Event.line (LineRead.ok l))).2.1.countP isDial) = 0 ∧
    (step env s (Event.line (LineRead.ok l))).1 = s := by
  have h : step env s (Event.line (LineRead.ok l))
      = (s, [Action.printPrompt, Action.publish chakraTopic (utf8Encode l)],
          Outcome.next) := by
    simp [step, hflag]
  rw [h]
  exact ⟨rfl, rfl, rfl, rfl⟩

/-- Witness for `c8_publish_once` at a concrete input. -/
theorem c8_witness :
    (step env0 { connection_established := true, floodView := [] }
        (Event.line (LineRead.ok "hi"))).2.1
      = [Action.printPrompt, Action.publish chakraTopic (utf8Encode "hi")] ∧
    ((step env0 { connection_established := true, floodView := [] }
        (Event.line (LineRead.ok "hi"))).2.1.countP isPublish) = 1 ∧
    ((step env0 { connection_established := true, floodView := [] }
        (Event.line (LineRead.ok "hi"))).2.1.countP isDial) = 0 ∧
    (step env0 { connection_established := true, floodView := [] }
        (Event.line (LineRead.ok "hi"))).1
      = { connection_established := true, floodView := [] } :=
  c8_publish_once env0 { connection_established := true, floodView := [] } "hi" rfl

/-- Claim C9: once `connection_established` is true, no event sequence ever
resets it — the flag is only ever written inside `if !connection_established`
(main.rs line 114), so it stays true for the rest of the run. -/
theorem c9_flag_never_resets (env : Env) (s : SessionState) (evs : List Event)
    (h : s.connection_established = true) :
    (run env s evs).1.connection_established = true :=
  run_flag_mono env evs s h

/-- Witness for `c9_flag_never_resets` at a concrete input. -/
theorem c9_witness :
    (run env0 { connection_established := true, floodView := [] }
        [Event.swarm (SwarmEv.ping "p" false),
          Event.swarm SwarmEv.other]).1.connection_established = true :=
  c9_flag_never_resets env0 { connection_established := true, floodView := [] }
    [Event.swarm (SwarmEv.ping "p" false), Event.swarm SwarmEv.other] rfl

/-- Claim C10: over any run from the initial state the flood view never
holds more than one peer, and the only iteration that changes the view at
all is a ping event processed with the flag false — which also raises the
flag, so it can happen at most once. -/
theorem c10_at_most_one_peer (env : Env) (evs : List Event) :
    (run env initState evs).1.floodView.length ≤ 1 ∧
    ∀ (s : SessionState) (e : Event),
      (step env s e).1.floodView ≠ s.floodView →
      ∃ p b, e = Event.swarm (SwarmEv.ping p b) ∧
        s.connection_established = false ∧
        (step env s e).1.connection_established = true := by
  constructor
  · exact (run_preserves_viewInv env evs initState ⟨fun _ => rfl, by decide⟩).2
  · intro s e hch
    rcases step_state_cases env s e with h1 | ⟨p, b, he, hfalse, h1⟩
    · exact absurd (congrArg SessionState.floodView h1) hch
    · exact ⟨p, b, he, hfalse, by rw [h1]⟩

/-- Witness for `c10_at_most_one_peer` at a concrete input. -/
theorem c10_witness :
    (run env0 initState []).1.floodView.length ≤ 1 ∧
    ∃ p b, Event.swarm (SwarmEv.ping "q" false) = Event.swarm (SwarmEv.ping p b) ∧
      initState.connection_established = false ∧
      (step env0 initState
          (Event.swarm (SwarmEv.ping "q" false))).1.connection_established = true :=
  ⟨(c10_at_most_one_peer env0 []).1,
    (c10_at_most_one_peer env0 []).2 initState (Event.swarm (SwarmEv.ping "q" false))
      (by decide)⟩

end Chakra
